import Mathlib

/-!
Verification of the ADVBOX DJEN reverse proxy (`server.js`) and its Supabase
storage schema (`create_tables.sql`, `SETUP_SUPABASE.md`).

The `GET /djen` Express handler is embedded as a pure function from the parsed
query string, an upstream oracle (standing for `axios.get`), and the current
timestamp, to the pair of (the list of upstream requests actually issued, the
single HTTP response written to the client).  The storage schema is embedded as
a list-of-rows store whose insert operation checks the SQL `NOT NULL` and
`UNIQUE` constraints, with reachability by repeated inserts from the empty
store.
-/

namespace AdvboxDjen

/-- The query string of a `GET /djen` request as Express parses it:
the five parameters the handler destructures (`none` = absent), plus any
further query members, which the handler never reads but echoes back whole
(`received_params: req.query`, `request_params: req.query`). -/
structure Query where
  nomeAdvogado : Option String
  dataDisponibilizacaoInicio : Option String
  dataDisponibilizacaoFim : Option String
  itensPorPagina : Option String
  meio : Option String
  extra : List (String × String)
deriving Repr, DecidableEq

/-- JavaScript falsiness of a destructured query value: `!x` is true when the
property is absent (`undefined`) or the empty string. -/
def jsFalsy : Option String → Bool
  | none => true
  | some s => s == ""

/-- The `params` object built by the handler and passed to `axios.get`:
destructuring defaults `nomeAdvogado = 'Eduardo Koetz'`,
`itensPorPagina = '100'`, `meio = 'D'`; the two dates have no default. -/
structure DjenParams where
  nomeAdvogado : String
  dataDisponibilizacaoInicio : String
  dataDisponibilizacaoFim : String
  itensPorPagina : String
  meio : String
deriving Repr, DecidableEq

/-- Build the upstream query parameters from the incoming query, applying the
destructuring defaults of `server.js` lines 48-54.  On every path where these
parameters are used the two dates are present and non-empty (the handler has
already validated them), so the `getD ""` on the dates never fires there. -/
def djenParams (q : Query) : DjenParams :=
  { nomeAdvogado := q.nomeAdvogado.getD "Eduardo Koetz"
    dataDisponibilizacaoInicio := q.dataDisponibilizacaoInicio.getD ""
    dataDisponibilizacaoFim := q.dataDisponibilizacaoFim.getD ""
    itensPorPagina := q.itensPorPagina.getD "100"
    meio := q.meio.getD "D" }

/-- One outgoing HTTP request to the upstream DJEN API, as configured in the
`axios.get` call (URL, query parameters, timeout in milliseconds, headers). -/
structure UpstreamRequest where
  url : String
  params : DjenParams
  timeout : Nat
  headers : List (String × String)
deriving Repr, DecidableEq

/-- The headers `server.js` sends upstream (lines 82-86). -/
def djenHeaders : List (String × String) :=
  [("Accept", "application/json"),
   ("User-Agent", "ADVBOX-Render-Proxy/1.0"),
   ("Accept-Language", "pt-BR,pt;q=0.9,en;q=0.8")]

/-- The single upstream request the handler can issue for an incoming query
(lines 66-87 of `server.js`). -/
def djenRequest (q : Query) : UpstreamRequest :=
  { url := "https://comunicaapi.pje.jus.br/api/v1/comunicacao"
    params := djenParams q
    timeout := 30000
    headers := djenHeaders }

/-- The upstream JSON body: the two members the handler inspects for `stats`
(`count`, `items`), and the remaining members, carried opaquely.  Items are
opaque raw values; only their number matters to the handler. -/
structure ApiBody where
  count : Option Nat
  items : Option (List String)
  extra : List (String × String)
deriving Repr, DecidableEq

/-- Outcome of the `await axios.get(...)`: the promise resolves with a status
and body, or rejects with an error that carries the upstream response
(`error.response` set: non-2xx status), or rejects with no response at all
(network failure or timeout). -/
inductive UpstreamOutcome
  | success (status : Nat) (body : ApiBody)
  | httpError (status : Nat) (statusText : String) (headers : List (String × String))
      (message : String)
  | networkError (message : String)
deriving Repr, DecidableEq

/-- The `proxy_info` member of the success envelope (lines 96-102). -/
structure ProxyInfo where
  service : String
  method : String
  status_code : Nat
  server_location : String
  parametros_enviados : DjenParams
deriving Repr, DecidableEq

/-- The `stats` member of the success envelope (lines 104-107). -/
structure Stats where
  total_intimacoes : Nat
  total_items : Nat
deriving Repr, DecidableEq

/-- `stats.total_items`: `response.data.items ? response.data.items.length : 0`
(an absent `items` member is falsy; a present array, even empty, is truthy). -/
def itemsLength (b : ApiBody) : Nat :=
  match b.items with
  | some l => l.length
  | none => 0

/-- The `axios_error` member of the error envelope: either the upstream
response data (status, statusText, headers) or the literal string
`'Network/timeout error'` when no response was received (lines 121-125). -/
inductive AxiosErrorInfo
  | withResponse (status : Nat) (statusText : String) (headers : List (String × String))
  | noResponse
deriving Repr, DecidableEq

/-- The `debug_info` member of the error envelope (lines 119-127). -/
structure DebugInfo where
  service : String
  axios_error : AxiosErrorInfo
  request_params : Query
deriving Repr, DecidableEq

/-- The three JSON body shapes the `/djen` handler can write: the 400
validation error (lines 58-62), the success envelope (lines 93-108), and the
catch-branch error envelope (lines 115-128).  The `success` boolean of the
JSON is determined by the constructor (`true` only for `successBody`). -/
inductive ResponseBody
  | validationError (error : String) (received_params : Query)
  | successBody (timestamp : String) (proxy_info : ProxyInfo) (api_response : ApiBody)
      (stats : Stats)
  | errorBody (error : String) (timestamp : String) (debug_info : DebugInfo)
deriving Repr, DecidableEq

/-- The HTTP response sent to the client: status code and JSON body. -/
structure HttpResponse where
  status : Nat
  body : ResponseBody
deriving Repr, DecidableEq

/-- The literal error message of the 400 validation response. -/
def requiredParamsError : String :=
  "Parâmetros obrigatórios: dataDisponibilizacaoInicio, dataDisponibilizacaoFim"

/-- The `GET /djen` handler (`server.js` lines 43-134) as a pure function.
`upstream` stands for `axios.get`; `now` for `new Date().toISOString()`.
Returns the list of upstream requests issued during the handling (empty when
validation fails) and the one HTTP response written to the client.

- Lines 48-54: destructure the query with defaults (see `djenParams`).
- Line 57: `if (!dataDisponibilizacaoInicio || !dataDisponibilizacaoFim)` —
  a JavaScript falsiness check, so absent and empty-string dates alike take
  the 400 branch, and no upstream request is made.
- Lines 79-87: one `axios.get` with a 30000 ms timeout.
- Lines 93-110: on resolve, `res.json(resultado)` (status 200 by default),
  with `api_response: response.data` verbatim.
- Lines 112-133: on reject, status `error.response.status` when a response
  exists, else 500, with the error envelope. -/
def handleDjen (q : Query) (upstream : UpstreamRequest → UpstreamOutcome) (now : String) :
    List UpstreamRequest × HttpResponse :=
  if jsFalsy q.dataDisponibilizacaoInicio || jsFalsy q.dataDisponibilizacaoFim then
    ([], { status := 400, body := .validationError requiredParamsError q })
  else
    match upstream (djenRequest q) with
    | .success st body =>
        ([djenRequest q],
         { status := 200
           body := .successBody now
             { service := "Render.com"
               method := "axios_get"
               status_code := st
               server_location := "US/EU (Render)"
               parametros_enviados := djenParams q }
             body
             { total_intimacoes := body.count.getD 0
               total_items := itemsLength body } })
    | .httpError st stx hdrs msg =>
        ([djenRequest q],
         { status := st
           body := .errorBody msg now
             { service := "Render.com"
               axios_error := .withResponse st stx hdrs
               request_params := q } })
    | .networkError msg =>
        ([djenRequest q],
         { status := 500
           body := .errorBody msg now
             { service := "Render.com"
               axios_error := .noResponse
               request_params := q } })

/-- Extract the `stats` member when the body is a success envelope. -/
def ResponseBody.statsOf : ResponseBody → Option Stats
  | .successBody _ _ _ st => some st
  | _ => none

/-- Extract `proxy_info.status_code` when the body is a success envelope. -/
def ResponseBody.upstreamStatus : ResponseBody → Option Nat
  | .successBody _ pi _ _ => some pi.status_code
  | _ => none

/-!
Storage schema: table `intimacoes_eduardo_koetz` of `create_tables.sql`
(equivalently `intimacoes_djen` of `SETUP_SUPABASE.md`, whose constraints on
the columns used here coincide).  Every column is nullable at the type level,
as in SQL; `NOT NULL` is a schema check enforced at insert time.  The `id`
UUID primary key is generated per row and plays no role in the claims, so it
is omitted.  Dates, timestamps and JSONB values are carried as opaque
strings: no claim inspects their structure.
-/

/-- One row of `intimacoes_eduardo_koetz`.  Column order and names follow
`create_tables.sql` lines 5-19. -/
structure NoticeRow where
  id_intimacao : Option String
  numero_processo : Option String
  tribunal : Option String
  orgao_julgador : Option String
  data_publicacao : Option String
  tipo_comunicacao : Option String
  data_extracao : Option String
  conteudo_texto : Option String
  conteudo_original : Option String
  hash_conteudo : Option String
  metadados : Option String
  status_processamento : Option String
deriving Repr, DecidableEq

/-- SQL `UNIQUE` comparison of two column values: two NULLs never conflict,
only two equal non-NULL values do. -/
def sqlUniqueConflict (a b : Option String) : Bool :=
  match a, b with
  | some x, some y => x == y
  | _, _ => false

/-- The `NOT NULL` constraints of the table: `id_intimacao VARCHAR(255)
UNIQUE NOT NULL` and `conteudo_texto TEXT NOT NULL`.  SQL `NOT NULL` rejects
NULL and nothing else: the empty string is a legal non-NULL `TEXT` value. -/
def rowNotNullOk (r : NoticeRow) : Bool :=
  r.id_intimacao.isSome && r.conteudo_texto.isSome

/-- Whether inserting `r` into the store `s` satisfies every constraint of
the schema: the two `NOT NULL` columns, `UNIQUE` on `id_intimacao`, and
`UNIQUE` on `hash_conteudo`. -/
def insertOk (s : List NoticeRow) (r : NoticeRow) : Bool :=
  rowNotNullOk r
    && !(s.any fun r0 => sqlUniqueConflict r0.id_intimacao r.id_intimacao)
    && !(s.any fun r0 => sqlUniqueConflict r0.hash_conteudo r.hash_conteudo)

/-- Insert under the schema: the row is added when every constraint holds,
otherwise the store is unchanged and the insert is rejected (a constraint
violation, classified by the pipeline as a duplicate).  The boolean reports
whether the row was inserted. -/
def insertNotice (s : List NoticeRow) (r : NoticeRow) : List NoticeRow × Bool :=
  if insertOk s r then (r :: s, true) else (s, false)

/-- The store states reachable from the empty table by inserts — every state
the append-only pipeline can produce. -/
inductive ReachableStore : List NoticeRow → Prop
  | empty : ReachableStore []
  | insert (s : List NoticeRow) (r : NoticeRow) (h : ReachableStore s) :
      ReachableStore (insertNotice s r).1

/-!
Concrete fixtures used by the witnesses.
-/

/-- A valid query: both dates present and non-empty, optional parameters
absent. -/
def qOk : Query :=
  { nomeAdvogado := none
    dataDisponibilizacaoInicio := some "2025-07-01"
    dataDisponibilizacaoFim := some "2025-07-22"
    itensPorPagina := none
    meio := none
    extra := [] }

/-- A valid query with every optional parameter present, plus an extra query
member the handler never reads. -/
def qFull : Query :=
  { nomeAdvogado := some "Fulana Souza"
    dataDisponibilizacaoInicio := some "2025-07-01"
    dataDisponibilizacaoFim := some "2025-07-22"
    itensPorPagina := some "25"
    meio := some "E"
    extra := [("pagina", "2")] }

/-- A query missing `dataDisponibilizacaoFim`. -/
def qNoFim : Query :=
  { nomeAdvogado := none
    dataDisponibilizacaoInicio := some "2025-07-01"
    dataDisponibilizacaoFim := none
    itensPorPagina := none
    meio := none
    extra := [] }

/-- A query whose `dataDisponibilizacaoInicio` is the empty string. -/
def qEmptyInicio : Query :=
  { nomeAdvogado := none
    dataDisponibilizacaoInicio := some ""
    dataDisponibilizacaoFim := some "2025-07-22"
    itensPorPagina := none
    meio := none
    extra := [] }

/-- A sample upstream body with both `count` and `items` present. -/
def bodySample : ApiBody :=
  { count := some 2, items := some ["item-1", "item-2"], extra := [("status", "OK")] }

/-- An upstream oracle that resolves with status 200 and `bodySample`. -/
def uSuccess : UpstreamRequest → UpstreamOutcome :=
  fun _ => .success 200 bodySample

/-- An upstream oracle that resolves with a body lacking `count` and
`items`. -/
def uNoStats : UpstreamRequest → UpstreamOutcome :=
  fun _ => .success 200 { count := none, items := none, extra := [] }

/-- An upstream oracle that rejects with a 403 response attached. -/
def uHttpErr : UpstreamRequest → UpstreamOutcome :=
  fun _ => .httpError 403 "Forbidden" [("server", "CloudFront")]
    "Request failed with status code 403"

/-- An upstream oracle that rejects with no response (timeout). -/
def uNetErr : UpstreamRequest → UpstreamOutcome :=
  fun _ => .networkError "timeout of 30000ms exceeded"

/-!
Claim theorems.
-/

/-- C1: when `dataDisponibilizacaoInicio` or `dataDisponibilizacaoFim` is
absent from the query, the handler responds with HTTP 400 and the structured
validation-error body (echoing the received query), and issues no upstream
request. -/
theorem missing_date_params_yield_400_and_no_upstream_call
    (q : Query) (u : UpstreamRequest → UpstreamOutcome) (now : String)
    (h : q.dataDisponibilizacaoInicio = none ∨ q.dataDisponibilizacaoFim = none) :
    handleDjen q u now =
      ([], { status := 400, body := .validationError requiredParamsError q }) := by
  rcases h with h | h <;> simp [handleDjen, jsFalsy, h]

/-- Witness for C1: a request missing `dataDisponibilizacaoFim` gets the 400
response and no upstream request is issued. -/
theorem missing_date_params_yield_400_and_no_upstream_call_witness :
    qNoFim.dataDisponibilizacaoFim = none ∧
    handleDjen qNoFim uSuccess "2025-07-22T06:00:00.000Z" =
      ([], { status := 400, body := .validationError requiredParamsError qNoFim }) :=
  ⟨rfl, missing_date_params_yield_400_and_no_upstream_call qNoFim uSuccess
    "2025-07-22T06:00:00.000Z" (Or.inr rfl)⟩

/-- C9: an empty-string date parameter is treated exactly like an absent one
(`!x` is true for the empty string): the handler responds with HTTP 400,
echoing the received query, and issues no upstream request. -/
theorem empty_string_dates_yield_400
    (q : Query) (u : UpstreamRequest → UpstreamOutcome) (now : String)
    (h : q.dataDisponibilizacaoInicio = some "" ∨ q.dataDisponibilizacaoFim = some "") :
    handleDjen q u now =
      ([], { status := 400, body := .validationError requiredParamsError q }) := by
  rcases h with h | h <;> simp [handleDjen, jsFalsy, h]

/-- Witness for C9: a request whose `dataDisponibilizacaoInicio` is the empty
string gets the 400 response with the received query echoed, and no upstream
request is issued. -/
theorem empty_string_dates_yield_400_witness :
    qEmptyInicio.dataDisponibilizacaoInicio = some "" ∧
    handleDjen qEmptyInicio uSuccess "2025-07-22T06:00:00.000Z" =
      ([], { status := 400, body := .validationError requiredParamsError qEmptyInicio }) :=
  ⟨rfl, empty_string_dates_yield_400 qEmptyInicio uSuccess
    "2025-07-22T06:00:00.000Z" (Or.inl rfl)⟩

/-- C7: for any incoming query, any upstream behaviour and any time, the
handler issues at most one upstream request; the returned response is unique
by construction (the handler yields exactly one `HttpResponse`). -/
theorem at_most_one_upstream_attempt
    (q : Query) (u : UpstreamRequest → UpstreamOutcome) (now : String) :
    (handleDjen q u now).1.length ≤ 1 := by
  unfold handleDjen
  split
  · simp
  · split <;> simp

/-- C8: every upstream request the handler issues carries a timeout of
30000 milliseconds. -/
theorem upstream_requests_have_30s_timeout
    (q : Query) (u : UpstreamRequest → UpstreamOutcome) (now : String)
    (r : UpstreamRequest) (hr : r ∈ (handleDjen q u now).1) :
    r.timeout = 30000 := by
  unfold handleDjen at hr
  split at hr
  · simp at hr
  · split at hr <;> simp at hr <;> subst hr <;> rfl

/-- Witness for C8: on a valid query the issued request is in the trace and
its timeout is 30000 ms. -/
theorem upstream_requests_have_30s_timeout_witness :
    djenRequest qOk ∈ (handleDjen qOk uSuccess "2025-07-22T06:00:00.000Z").1 ∧
    (djenRequest qOk).timeout = 30000 :=
  ⟨by decide,
   upstream_requests_have_30s_timeout qOk uSuccess "2025-07-22T06:00:00.000Z"
     (djenRequest qOk) (by decide)⟩

/-- C3: when the upstream call fails after validation passed, the handler
mirrors the upstream status when a response was received, and responds 500
when none was; either way the body is the error envelope carrying the failure
message and echoing the received query parameters, and exactly the one
upstream request was issued. -/
theorem upstream_failure_mirrors_status_or_500
    (q : Query) (u : UpstreamRequest → UpstreamOutcome) (now : String)
    (h1 : jsFalsy q.dataDisponibilizacaoInicio = false)
    (h2 : jsFalsy q.dataDisponibilizacaoFim = false) :
    (∀ st stx hdrs msg, u (djenRequest q) = .httpError st stx hdrs msg →
      handleDjen q u now =
        ([djenRequest q],
         { status := st
           body := .errorBody msg now
             { service := "Render.com"
               axios_error := .withResponse st stx hdrs
               request_params := q } })) ∧
    (∀ msg, u (djenRequest q) = .networkError msg →
      handleDjen q u now =
        ([djenRequest q],
         { status := 500
           body := .errorBody msg now
             { service := "Render.com"
               axios_error := .noResponse
               request_params := q } })) := by
  constructor
  · intro st stx hdrs msg hu
    simp [handleDjen, h1, h2, hu]
  · intro msg hu
    simp [handleDjen, h1, h2, hu]

/-- Witness for C3: a 403 upstream rejection is mirrored as a 403 proxy
response, and a timeout with no response becomes a 500, each with the error
envelope echoing the query. -/
theorem upstream_failure_mirrors_status_or_500_witness :
    handleDjen qOk uHttpErr "2025-07-22T06:00:00.000Z" =
      ([djenRequest qOk],
       { status := 403
         body := .errorBody "Request failed with status code 403" "2025-07-22T06:00:00.000Z"
           { service := "Render.com"
             axios_error := .withResponse 403 "Forbidden" [("server", "CloudFront")]
             request_params := qOk } }) ∧
    handleDjen qOk uNetErr "2025-07-22T06:00:00.000Z" =
      ([djenRequest qOk],
       { status := 500
         body := .errorBody "timeout of 30000ms exceeded" "2025-07-22T06:00:00.000Z"
           { service := "Render.com"
             axios_error := .noResponse
             request_params := qOk } }) :=
  ⟨(upstream_failure_mirrors_status_or_500 qOk uHttpErr "2025-07-22T06:00:00.000Z"
      (by decide) (by decide)).1 403 "Forbidden" [("server", "CloudFront")]
      "Request failed with status code 403" rfl,
   (upstream_failure_mirrors_status_or_500 qOk uNetErr "2025-07-22T06:00:00.000Z"
      (by decide) (by decide)).2 "timeout of 30000ms exceeded" rfl⟩

/-- C4: when the upstream call resolves, the handler's response carries the
upstream body verbatim as `api_response`, an envelope whose
`proxy_info.status_code` is the upstream status, and `parametros_enviados`
echoing exactly the parameters sent upstream. -/
theorem upstream_success_body_forwarded_verbatim
    (q : Query) (u : UpstreamRequest → UpstreamOutcome) (now : String)
    (st : Nat) (b : ApiBody)
    (h1 : jsFalsy q.dataDisponibilizacaoInicio = false)
    (h2 : jsFalsy q.dataDisponibilizacaoFim = false)
    (hu : u (djenRequest q) = .success st b) :
    handleDjen q u now =
      ([djenRequest q],
       { status := 200
         body := .successBody now
           { service := "Render.com"
             method := "axios_get"
             status_code := st
             server_location := "US/EU (Render)"
             parametros_enviados := djenParams q }
           b
           { total_intimacoes := b.count.getD 0
             total_items := itemsLength b } }) := by
  simp [handleDjen, h1, h2, hu]

/-- Witness for C4: a successful call on a valid query yields the success
envelope with `bodySample` forwarded verbatim. -/
theorem upstream_success_body_forwarded_verbatim_witness :
    handleDjen qOk uSuccess "2025-07-22T06:00:00.000Z" =
      ([djenRequest qOk],
       { status := 200
         body := .successBody "2025-07-22T06:00:00.000Z"
           { service := "Render.com"
             method := "axios_get"
             status_code := 200
             server_location := "US/EU (Render)"
             parametros_enviados := djenParams qOk }
           bodySample
           { total_intimacoes := 2
             total_items := 2 } }) :=
  upstream_success_body_forwarded_verbatim qOk uSuccess "2025-07-22T06:00:00.000Z"
    200 bodySample (by decide) (by decide) rfl

/-- C10: on upstream success the proxy itself responds 200 whatever the
upstream status was; the upstream status appears only in
`proxy_info.status_code`; and a body lacking `count` or `items` degrades the
corresponding stat to zero instead of raising an error. -/
theorem success_branch_responds_200_and_degrades_stats
    (q : Query) (u : UpstreamRequest → UpstreamOutcome) (now : String)
    (st : Nat) (b : ApiBody)
    (h1 : jsFalsy q.dataDisponibilizacaoInicio = false)
    (h2 : jsFalsy q.dataDisponibilizacaoFim = false)
    (hu : u (djenRequest q) = .success st b) :
    (handleDjen q u now).2.status = 200 ∧
    ResponseBody.upstreamStatus (handleDjen q u now).2.body = some st ∧
    (b.count = none →
      ResponseBody.statsOf (handleDjen q u now).2.body =
        some { total_intimacoes := 0, total_items := itemsLength b }) ∧
    (b.items = none →
      ResponseBody.statsOf (handleDjen q u now).2.body =
        some { total_intimacoes := b.count.getD 0, total_items := 0 }) := by
  refine ⟨?_, ?_, ?_, ?_⟩
  · simp [handleDjen, h1, h2, hu]
  · simp [handleDjen, h1, h2, hu, ResponseBody.upstreamStatus]
  · intro hc
    simp [handleDjen, h1, h2, hu, ResponseBody.statsOf, hc]
  · intro hi
    simp [handleDjen, h1, h2, hu, ResponseBody.statsOf, hi, itemsLength]

/-- Witness for C10: an upstream 203 response whose body has neither `count`
nor `items` produces a proxy 200 with zeroed stats, the 203 reported only in
the envelope. -/
theorem success_branch_responds_200_and_degrades_stats_witness :
    (handleDjen qOk uNoStats "2025-07-22T06:00:00.000Z").2.status = 200 ∧
    ResponseBody.upstreamStatus
      (handleDjen qOk uNoStats "2025-07-22T06:00:00.000Z").2.body = some 200 ∧
    ResponseBody.statsOf (handleDjen qOk uNoStats "2025-07-22T06:00:00.000Z").2.body =
      some { total_intimacoes := 0, total_items := 0 } := by
  have h := success_branch_responds_200_and_degrades_stats qOk uNoStats
    "2025-07-22T06:00:00.000Z" 200 { count := none, items := none, extra := [] }
    (by decide) (by decide) rfl
  exact ⟨h.1, h.2.1, h.2.2.1 rfl⟩

/-- C5: on a valid query the handler issues exactly the request built from
the destructuring defaults: absent `nomeAdvogado`, `itensPorPagina`, `meio`
become `"Eduardo Koetz"`, `"100"`, `"D"`, present ones are forwarded
verbatim, as are the two dates; the request carries the mandatory identifying
headers. -/
theorem optional_params_default_and_forward_verbatim
    (q : Query) (u : UpstreamRequest → UpstreamOutcome) (now : String)
    (h1 : jsFalsy q.dataDisponibilizacaoInicio = false)
    (h2 : jsFalsy q.dataDisponibilizacaoFim = false) :
    (handleDjen q u now).1 = [djenRequest q] ∧
    (djenRequest q).params = djenParams q ∧
    (djenRequest q).headers = djenHeaders ∧
    (q.nomeAdvogado = none → (djenParams q).nomeAdvogado = "Eduardo Koetz") ∧
    (q.itensPorPagina = none → (djenParams q).itensPorPagina = "100") ∧
    (q.meio = none → (djenParams q).meio = "D") ∧
    (∀ s, q.nomeAdvogado = some s → (djenParams q).nomeAdvogado = s) ∧
    (∀ s, q.itensPorPagina = some s → (djenParams q).itensPorPagina = s) ∧
    (∀ s, q.meio = some s → (djenParams q).meio = s) ∧
    (∀ s, q.dataDisponibilizacaoInicio = some s →
      (djenParams q).dataDisponibilizacaoInicio = s) ∧
    (∀ s, q.dataDisponibilizacaoFim = some s →
      (djenParams q).dataDisponibilizacaoFim = s) := by
  refine ⟨?_, rfl, rfl, ?_, ?_, ?_, ?_, ?_, ?_, ?_, ?_⟩
  · cases hu : u (djenRequest q) with
    | success st b => simp [handleDjen, h1, h2, hu]
    | httpError st stx hdrs msg => simp [handleDjen, h1, h2, hu]
    | networkError msg => simp [handleDjen, h1, h2, hu]
  all_goals intros
  all_goals simp [djenParams, *]

/-- Witness for C5: with optionals absent the defaults are applied; with all
present they are forwarded verbatim, and the valid query produces exactly one
upstream request. -/
theorem optional_params_default_and_forward_verbatim_witness :
    (handleDjen qOk uSuccess "2025-07-22T06:00:00.000Z").1 = [djenRequest qOk] ∧
    (djenParams qOk).nomeAdvogado = "Eduardo Koetz" ∧
    (djenParams qOk).itensPorPagina = "100" ∧
    (djenParams qOk).meio = "D" ∧
    (djenParams qFull).nomeAdvogado = "Fulana Souza" ∧
    (djenParams qFull).itensPorPagina = "25" ∧
    (djenParams qFull).meio = "E" ∧
    (djenParams qFull).dataDisponibilizacaoInicio = "2025-07-01" ∧
    (djenParams qFull).dataDisponibilizacaoFim = "2025-07-22" := by
  have hOk := optional_params_default_and_forward_verbatim qOk uSuccess
    "2025-07-22T06:00:00.000Z" (by decide) (by decide)
  have hFull := optional_params_default_and_forward_verbatim qFull uSuccess
    "2025-07-22T06:00:00.000Z" (by decide) (by decide)
  refine ⟨hOk.1, hOk.2.2.2.1 rfl, hOk.2.2.2.2.1 rfl, hOk.2.2.2.2.2.1 rfl,
    hFull.2.2.2.2.2.2.1 "Fulana Souza" rfl,
    hFull.2.2.2.2.2.2.2.1 "25" rfl,
    hFull.2.2.2.2.2.2.2.2.1 "E" rfl,
    hFull.2.2.2.2.2.2.2.2.2.1 "2025-07-01" rfl,
    hFull.2.2.2.2.2.2.2.2.2.2 "2025-07-22" rfl⟩

/-!
Store fixtures and claims about the storage schema.
-/

/-- A well-formed stored row. -/
def rowA : NoticeRow :=
  { id_intimacao := some "INT-001"
    numero_processo := some "0001234-56.2025.8.21.0001"
    tribunal := some "TJRS"
    orgao_julgador := some "1a Vara Civel"
    data_publicacao := some "2025-07-21"
    tipo_comunicacao := some "Intimacao"
    data_extracao := some "2025-07-22T06:00:00Z"
    conteudo_texto := some "Fica intimado o advogado Eduardo Koetz."
    conteudo_original := some "raw-json-A"
    hash_conteudo := some "hash-A"
    metadados := some "meta-A"
    status_processamento := some "extraido" }

/-- A second well-formed row with a different external id and hash. -/
def rowB : NoticeRow :=
  { rowA with
    id_intimacao := some "INT-002"
    conteudo_texto := some "Outra intimacao."
    hash_conteudo := some "hash-B" }

/-- A row whose `conteudo_texto` is the empty string: non-NULL, so every
schema constraint accepts it. -/
def emptyTextRow : NoticeRow :=
  { rowA with
    id_intimacao := some "INT-000"
    conteudo_texto := some ""
    hash_conteudo := some "hash-empty" }

/-- A `UNIQUE` column that conflicts with no stored non-NULL value `some x`
differs from it. -/
theorem ne_of_no_conflict {a : Option String} {x : String}
    (h : sqlUniqueConflict a (some x) = false) : some x ≠ a := by
  cases a with
  | none => exact fun hc => Option.noConfusion hc
  | some y =>
    simp [sqlUniqueConflict] at h
    exact fun hc => h (Option.some.inj hc).symm

/-- C2: in every store state reachable by inserts from the empty table, no
two rows share the same `id_intimacao`: the `UNIQUE NOT NULL` constraint on
the external identifier makes the uniqueness invariant hold in every
reachable state. -/
theorem reachable_store_has_unique_external_ids (s : List NoticeRow)
    (h : ReachableStore s) :
    s.Pairwise (fun a b => a.id_intimacao ≠ b.id_intimacao) := by
  induction h with
  | empty => exact List.Pairwise.nil
  | insert s r _ ih =>
    show List.Pairwise _ (insertNotice s r).1
    unfold insertNotice
    split
    · rename_i hok
      simp only [insertOk, rowNotNullOk, Bool.and_eq_true, Bool.not_eq_true',
        List.any_eq_false] at hok
      obtain ⟨⟨⟨hidSome, _⟩, hidNoConf⟩, _⟩ := hok
      obtain ⟨x, hx⟩ := Option.isSome_iff_exists.mp hidSome
      refine List.Pairwise.cons (fun b hb => ?_) ih
      have hconf := hidNoConf b hb
      rw [hx] at hconf ⊢
      exact ne_of_no_conflict (Bool.eq_false_iff.mpr hconf)
    · exact ih

/-- Witness for C2: the store reached by inserting `rowA` then `rowB` has
pairwise distinct external ids. -/
theorem reachable_store_has_unique_external_ids_witness :
    List.Pairwise (fun a b => a.id_intimacao ≠ b.id_intimacao)
      (insertNotice (insertNotice [] rowA).1 rowB).1 :=
  reachable_store_has_unique_external_ids _
    (ReachableStore.insert _ rowB (ReachableStore.insert _ rowA ReachableStore.empty))

/-- C6 counterexample: the claim "every row the storage schema admits has a
non-empty bodyText" is false: `conteudo_texto TEXT NOT NULL` rejects only
NULL, so a row whose `conteudo_texto` is the empty string is inserted into a
reachable state. -/
theorem schema_admits_empty_body_text :
    ¬ (∀ s, ReachableStore s → ∀ r ∈ s, r.conteudo_texto ≠ some "") := by
  intro h
  have hmem : emptyTextRow ∈ (insertNotice [] emptyTextRow).1 := by decide
  exact h (insertNotice [] emptyTextRow).1
    (ReachableStore.insert [] emptyTextRow ReachableStore.empty) emptyTextRow hmem rfl

/-- C6 amended: every row in a reachable store state has a present (non-NULL)
`conteudo_texto` — the schema's `NOT NULL` enforces presence, though not
non-emptiness. -/
theorem reachable_store_body_text_present (s : List NoticeRow)
    (h : ReachableStore s) :
    ∀ r ∈ s, r.conteudo_texto.isSome := by
  induction h with
  | empty => intro r hr; cases hr
  | insert s r _ ih =>
    show ∀ b ∈ (insertNotice s r).1, _
    unfold insertNotice
    split
    · rename_i hok
      intro b hb
      rcases List.mem_cons.mp hb with hb | hb
      · subst hb
        simp only [insertOk, rowNotNullOk, Bool.and_eq_true] at hok
        exact hok.1.1.2
      · exact ih b hb
    · exact ih

/-- Witness for the amended C6: the row stored by inserting `rowA` has a
present body text. -/
theorem reachable_store_body_text_present_witness :
    rowA.conteudo_texto.isSome :=
  reachable_store_body_text_present _
    (ReachableStore.insert [] rowA ReachableStore.empty) rowA (by decide)

end AdvboxDjen
